import Mathlib

/-
Verification of the dragpy library (draggable matplotlib overlays).

The development shallowly embeds the two source modules:
  * `dragpy/dragpy.py` — the package module (`_DragObj`, `_DragLine`,
    `_DragPatch`, `DragLine2D`, the concrete patch classes, `FixedWindow`,
    `Window`, and the helpers `axesextent`, `listmult`, `draglimiter`);
  * `dragpy.py` — the legacy root module (`DragObj`, `DragLine`), embedded
    in the `Legacy` namespace.

Coordinates are modelled as integers, matplotlib artists as records carrying
an identity, a url tag and a containment predicate, and Python exceptions as
an explicit `PyError` type propagated through `Except` / `Option`.
-/

namespace Dragpy

/-- Python exceptions that the embedded code can raise. -/
inductive PyError where
  | valueError
  | attributeError
  | typeError
  | indexError
  | unboundLocalError
deriving DecidableEq, Repr

/-- Model of Python's `str.lower` (ASCII case folding, which covers every
orientation string the library compares against). -/
def pyLower (s : String) : String := ⟨s.data.map Char.toLower⟩

/-- A pointer event: the axes the pointer is over (if any, by identity) and
its data-space coordinates, mirroring `event.inaxes`, `event.xdata`,
`event.ydata`. -/
structure Event where
  inaxes : Option Nat
  xdata : Int
  ydata : Int

/-- A matplotlib artist as the library uses it: an identity (standing for
Python object identity), the mutable `url` tag, and the geometric
containment test `Artist.contains(event)` delegated to the library. -/
structure Artist where
  id : Nat
  url : String
  contains : Event → Bool

/-- An axes object: identity, current x/y limits, and the child artists in
back-to-front rendering order (`ax.get_children()`). -/
structure Axes where
  id : Nat
  xlim : Int × Int
  ylim : Int × Int
  children : List Artist

/-- Embedding of `axesextent(ax)`. -/
def axesextent (ax : Axes) : Int × Int :=
  (ax.xlim.2 - ax.xlim.1, ax.ylim.2 - ax.ylim.1)

/-- Embedding of `listmult(A, c)`: elementwise product of a list with a
scalar. -/
def listmult (A : List Int) (c : Int) : List Int := A.map (fun i => i * c)

/-- Embedding of `draglimiter(dataseries, querypoint)`.  Python's `min`/`max`
raise `ValueError` on an empty sequence, modelled by `none`. -/
def draglimiter (dataseries : List Int) (querypoint : Int) : Option Int :=
  match dataseries.min?, dataseries.max? with
  | some minvalue, some maxvalue =>
      if querypoint > maxvalue then some maxvalue
      else if querypoint < minvalue then some minvalue
      else some querypoint
  | _, _ => none

/-- A reference lineseries (the `snapto` argument): its x and y data. -/
structure Lineseries where
  xdata : List Int
  ydata : List Int

/-- State installed by `_DragObj.__init__`: the parent axes, the wrapped
artist, the `clicked` flag, and whether the motion/release callbacks are
currently connected to the canvas (`mpl_connect` tokens `mousemotion` /
`clickrelease`).  `clickx`/`clicky` are the press coordinates recorded by
`on_click`; before the first qualifying press they are unset in Python and
default to 0 here. -/
structure DragObjBase where
  parentax : Axes
  myobj : Artist
  clicked : Bool
  connected : Bool
  clickx : Int
  clicky : Int

/-- Embedding of `_DragObj.__init__(ax)` given the artist the concrete class
assigned to `self.myobj`: tags the artist with url `"dragobj"` and starts
unclicked with no motion/release callbacks connected. -/
def DragObjBase.init (ax : Axes) (objid : Nat) (objcontains : Event → Bool) :
    DragObjBase :=
  { parentax := ax
    myobj := { id := objid, url := "dragobj", contains := objcontains }
    clicked := false
    connected := false
    clickx := 0
    clicky := 0 }

/-- Embedding of `_DragObj.shouldthismove(event)`: if our artist does not
contain the event, `False`; otherwise collect the dragobj-tagged children of
the parent axes containing the event and compare the last one against our
artist by identity.  `firingobjs[-1]` on an empty list raises `IndexError`. -/
def DragObjBase.shouldthismove (s : DragObjBase) (event : Event) :
    Except PyError Bool :=
  if !(s.myobj.contains event) then .ok false
  else
    let firingobjs := s.parentax.children.filter
      (fun child => child.url == "dragobj" && child.contains event)
    match firingobjs.getLast? with
    | some lastobj => .ok (lastobj.id == s.myobj.id)
    | none => .error .indexError

/-- Embedding of `_DragObj.on_click(event)`: out-of-axes events return with
no change; otherwise, when `shouldthismove` selects this object, connect the
motion/release callbacks, record the press coordinates, and set `clicked`. -/
def DragObjBase.on_click (s : DragObjBase) (event : Event) :
    Except PyError DragObjBase :=
  if event.inaxes ≠ some s.parentax.id then .ok s
  else
    match s.shouldthismove event with
    | .error e => .error e
    | .ok false => .ok s
    | .ok true =>
        .ok { s with
                connected := true
                clickx := event.xdata
                clicky := event.ydata
                clicked := true }

/-- Embedding of `_DragObj.on_release(event)` (with `disconnect`): clears
`clicked` and disconnects the motion/release callbacks. -/
def DragObjBase.on_release (s : DragObjBase) (_event : Event) : DragObjBase :=
  { s with clicked := false, connected := false }

/-- State of a `_DragLine` / `DragLine2D`: the base state plus the
orientation string, the optional snap series, and the wrapped `Line2D`
artist's x/y data. -/
structure DragLineState where
  base : DragObjBase
  orientation : String
  snapto : Option Lineseries
  xdata : List Int
  ydata : List Int

/-- Embedding of `_DragLine.on_motion(event)`: no-op unless clicked and over
the parent axes; for a vertical line move the x data (through `draglimiter`
when snapping) and reset the y data to the axes y-limits; symmetrically for a
horizontal line.  An orientation outside the two handled strings falls
through both branches and only redraws. -/
def DragLineState.on_motion (s : DragLineState) (event : Event) :
    Except PyError DragLineState :=
  if !s.base.clicked then .ok s
  else if event.inaxes ≠ some s.base.parentax.id then .ok s
  else if s.orientation = "vertical" then
    match (match s.snapto with
           | some snap => draglimiter snap.xdata event.xdata
           | none => some event.xdata) with
    | none => .error .valueError
    | some xcoord =>
        .ok { s with
                xdata := listmult [1, 1] xcoord
                ydata := [s.base.parentax.ylim.1, s.base.parentax.ylim.2] }
  else if s.orientation = "horizontal" then
    match (match s.snapto with
           | some snap => draglimiter snap.ydata event.ydata
           | none => some event.ydata) with
    | none => .error .valueError
    | some ycoord =>
        .ok { s with
                xdata := [s.base.parentax.xlim.1, s.base.parentax.xlim.2]
                ydata := listmult [1, 1] ycoord }
  else .ok s

/-- Embedding of `DragLine2D.__init__(ax, position, orientation, snapto)`:
lowercases the orientation, builds the `Line2D` data for the two supported
orientations, and raises `ValueError` otherwise.  `objid`/`objcontains`
stand for the identity and geometry of the artist the graphics library
creates. -/
def DragLine2D.init (ax : Axes) (objid : Nat) (objcontains : Event → Bool)
    (position : Int) (orientation : String) (snapto : Option Lineseries) :
    Except PyError DragLineState :=
  let orient := pyLower orientation
  if orient = "horizontal" then
    .ok { base := DragObjBase.init ax objid objcontains
          orientation := orient
          snapto := snapto
          xdata := [ax.xlim.1, ax.xlim.2]
          ydata := listmult [1, 1] position }
  else if orient = "vertical" then
    .ok { base := DragObjBase.init ax objid objcontains
          orientation := orient
          snapto := snapto
          xdata := listmult [1, 1] position
          ydata := [ax.ylim.1, ax.ylim.2] }
  else .error .valueError

/-- Shape-construction parameters forwarded to the drawing library by each
concrete patch class; the only place the concrete kinds differ. -/
inductive ShapeParams where
  | ellipse (width height angle : Int)
  | circle (radius : Int)
  | rectangle (width height angle : Int)
  | arc (width height angle theta1 theta2 : Int)
  | wedge (r theta1 theta2 : Int) (width : Option Int)
  | regularPolygon (numVertices : Nat) (radius rotationAngle : Int)
deriving DecidableEq, Repr

/-- State of a `_DragPatch`: the base state, the shape parameters of the
wrapped patch artist, the patch's current position (`center` for shapes with
a center, `xy` for corner-anchored shapes), and `oldxy`, the anchor recorded
at construction and refreshed on release. -/
structure DragPatchState where
  base : DragObjBase
  shape : ShapeParams
  pos : Int × Int
  oldxy : Int × Int

/-- Embedding of `_DragPatch.__init__(ax, xy)` together with the concrete
subclass's artist assignment. -/
def DragPatch.init (ax : Axes) (objid : Nat) (objcontains : Event → Bool)
    (shape : ShapeParams) (xy : Int × Int) : DragPatchState :=
  { base := DragObjBase.init ax objid objcontains
    shape := shape
    pos := xy
    oldxy := xy }

/-- Embedding of `_DragPatch.on_motion(event)`: no-op unless clicked and over
the parent axes; otherwise move the patch to `oldxy + (pointer − press
pointer)`.  The source's update/center/xy attribute cascade all amount to
setting the patch's position. -/
def DragPatchState.on_motion (s : DragPatchState) (event : Event) :
    DragPatchState :=
  if !s.base.clicked then s
  else if event.inaxes ≠ some s.base.parentax.id then s
  else
    let dx := event.xdata - s.base.clickx
    let dy := event.ydata - s.base.clicky
    { s with pos := (s.oldxy.1 + dx, s.oldxy.2 + dy) }

/-- Embedding of `_DragPatch.on_release(event)`: clears `clicked`, refreshes
the `oldxy` anchor from the patch's current position, and disconnects the
motion/release callbacks. -/
def DragPatchState.on_release (s : DragPatchState) (_event : Event) :
    DragPatchState :=
  { s with
      base := { s.base with clicked := false, connected := false }
      oldxy := s.pos }

/-- Embedding of `DragEllipse.__init__(ax, xy, width, height, angle)`. -/
def DragEllipse.init (ax : Axes) (objid : Nat) (objcontains : Event → Bool)
    (xy : Int × Int) (width height : Int) (angle : Int) : DragPatchState :=
  DragPatch.init ax objid objcontains (.ellipse width height angle) xy

/-- Embedding of `DragEllipse.__init__` as invoked at an arbitrary call
site: Python binds the call's positional arguments against the signature
`(self, ax, xy, width, height, angle=0.0, **kwargs)` and raises `TypeError`
when the required `width`/`height` arguments are missing. -/
def DragEllipse.initCall (ax : Axes) (objid : Nat) (objcontains : Event → Bool)
    (xy : Int × Int) (width? height? : Option Int) (angle : Int) :
    Except PyError DragPatchState :=
  match width?, height? with
  | some width, some height =>
      .ok (DragEllipse.init ax objid objcontains xy width height angle)
  | _, _ => .error .typeError

/-- Embedding of `DragCircle.__init__(ax, xy, radius)`: after assigning the
`Circle` artist, the source executes `super().__init__(ax, xy)`, which
resolves to `DragEllipse.__init__` and supplies neither `width` nor
`height`. -/
def DragCircle.init (ax : Axes) (objid : Nat) (objcontains : Event → Bool)
    (xy : Int × Int) (_radius : Int) : Except PyError DragPatchState :=
  DragEllipse.initCall ax objid objcontains xy none none 0

/-- Embedding of `DragRectangle.__init__(ax, xy, width, height, angle)`. -/
def DragRectangle.init (ax : Axes) (objid : Nat) (objcontains : Event → Bool)
    (xy : Int × Int) (width height : Int) (angle : Int) : DragPatchState :=
  DragPatch.init ax objid objcontains (.rectangle width height angle) xy

/-- Embedding of `DragArc.__init__(ax, xy, width, height, angle, theta1,
theta2)`. -/
def DragArc.init (ax : Axes) (objid : Nat) (objcontains : Event → Bool)
    (xy : Int × Int) (width height angle theta1 theta2 : Int) :
    DragPatchState :=
  DragPatch.init ax objid objcontains (.arc width height angle theta1 theta2) xy

/-- Embedding of `DragWedge.__init__(ax, center, r, theta1, theta2,
width)`. -/
def DragWedge.init (ax : Axes) (objid : Nat) (objcontains : Event → Bool)
    (center : Int × Int) (r theta1 theta2 : Int) (width : Option Int) :
    DragPatchState :=
  DragPatch.init ax objid objcontains (.wedge r theta1 theta2 width) center

/-- Embedding of `DragRegularPolygon.__init__(ax, xy, numVertices, radius,
orientation)`. -/
def DragRegularPolygon.init (ax : Axes) (objid : Nat)
    (objcontains : Event → Bool) (xy : Int × Int) (numVertices : Nat)
    (radius rotationAngle : Int) : DragPatchState :=
  DragPatch.init ax objid objcontains
    (.regularPolygon numVertices radius rotationAngle) xy

/-- State of a `FixedWindow`: base state, orientation, stored snap series,
the rectangle's corner `xy` with its width and height, and the `oldxy`
anchor. -/
structure FixedWindowState where
  base : DragObjBase
  orientation : String
  snapto : Option Lineseries
  xy : Int × Int
  width : Int
  height : Int
  oldxy : Int × Int

/-- Embedding of `FixedWindow.__init__(ax, primaryedge, windowsize,
orientation, snapto, ...)`: validates the lowercased orientation (raising
`ValueError` otherwise), anchors the rectangle at the axes edge, sizes it
`windowsize` wide and the full axes extent tall, and stores `snapto`. -/
def FixedWindow.init (ax : Axes) (objid : Nat) (objcontains : Event → Bool)
    (primaryedge windowsize : Int) (orientation : String)
    (snapto : Option Lineseries) : Except PyError FixedWindowState :=
  let orient := pyLower orientation
  if orient = "vertical" then
    let axesdimension := (axesextent ax).2
    let xy := (primaryedge, ax.ylim.1)
    .ok { base := DragObjBase.init ax objid objcontains
          orientation := orient
          snapto := snapto
          xy := xy
          width := windowsize
          height := axesdimension
          oldxy := xy }
  else if orient = "horizontal" then
    let axesdimension := (axesextent ax).1
    let xy := (ax.xlim.1, primaryedge)
    .ok { base := DragObjBase.init ax objid objcontains
          orientation := orient
          snapto := snapto
          xy := xy
          width := windowsize
          height := axesdimension
          oldxy := xy }
  else .error .valueError

/-- Embedding of `FixedWindow.on_motion(event)`: no-op unless clicked and
over the parent axes; applies the pointer delta only along the constrained
axis.  With an orientation outside the two handled strings the local
`newxy` is never assigned and Python raises `UnboundLocalError` (unreachable
for constructed objects, whose orientation was validated). -/
def FixedWindowState.on_motion (s : FixedWindowState) (event : Event) :
    Except PyError FixedWindowState :=
  if !s.base.clicked then .ok s
  else if event.inaxes ≠ some s.base.parentax.id then .ok s
  else if s.orientation = "horizontal" then
    let dy := event.ydata - s.base.clicky
    .ok { s with xy := (s.oldxy.1, s.oldxy.2 + dy) }
  else if s.orientation = "vertical" then
    let dx := event.xdata - s.base.clickx
    .ok { s with xy := (s.oldxy.1 + dx, s.oldxy.2) }
  else .error .unboundLocalError

/-- State of a `Window`: its two `DragLine2D` edges, the orientation string
as supplied (the source stores it unlowered), and the span rectangle's
corner, width and height. -/
structure WindowState where
  edge1 : DragLineState
  edge2 : DragLineState
  orientation : String
  spanxy : Int × Int
  spanwidth : Int
  spanheight : Int

/-- Embedding of the static `Window.spanpatchdims(edge1, edge2)`: corner at
the pointwise minima of the joined edge data, extents the absolute
differences of the maxima and minima.  Python's `min`/`max` on an empty
sequence raise `ValueError`. -/
def Window.spanpatchdims (edge1 edge2 : DragLineState) :
    Except PyError ((Int × Int) × Int × Int) :=
  match (edge1.xdata ++ edge2.xdata).min?, (edge1.xdata ++ edge2.xdata).max?,
        (edge1.ydata ++ edge2.ydata).min?, (edge1.ydata ++ edge2.ydata).max? with
  | some minx, some maxx, some miny, some maxy =>
      .ok ((minx, miny), |maxx - minx|, |maxy - miny|)
  | _, _, _, _ => .error .valueError

/-- Embedding of `Window.__init__(ax, primaryedge, windowstartsize,
orientation, snapto, ...)`: builds the two edges (whose construction
validates the orientation) and the initial span rectangle. -/
def Window.init (ax : Axes) (id1 id2 : Nat) (c1 c2 : Event → Bool)
    (primaryedge windowstartsize : Int) (orientation : String)
    (snapto : Option Lineseries) : Except PyError WindowState := do
  let e1 ← DragLine2D.init ax id1 c1 primaryedge orientation snapto
  let e2 ← DragLine2D.init ax id2 c2 (primaryedge + windowstartsize)
    orientation snapto
  let dims ← Window.spanpatchdims e1 e2
  .ok { edge1 := e1
        edge2 := e2
        orientation := orientation
        spanxy := dims.1
        spanwidth := dims.2.1
        spanheight := dims.2.2 }

/-- Embedding of `Window.resizespanpatch(event)`: recompute the span
rectangle from the two edges (the `if self.spanpatch:` guard is always
truthy for a constructed window). -/
def WindowState.resizespanpatch (w : WindowState) : Except PyError WindowState :=
  match Window.spanpatchdims w.edge1 w.edge2 with
  | .ok dims =>
      .ok { w with spanxy := dims.1, spanwidth := dims.2.1,
                   spanheight := dims.2.2 }
  | .error e => .error e

/-- Embedding of the `Window.bounds` property; Python implicitly returns
`None` when the stored orientation string matches neither branch. -/
def WindowState.bounds (w : WindowState) : Option (Int × Int) :=
  if w.orientation = "vertical" then
    some (w.spanxy.1, w.spanxy.1 + w.spanwidth)
  else if w.orientation = "horizontal" then
    some (w.spanxy.2, w.spanxy.2 + w.spanheight)
  else none

end Dragpy

namespace Legacy

open Dragpy

/-- State of the legacy root module's `DragLine`. -/
structure DragLineState where
  orientation : String
  xdata : List Int
  ydata : List Int
  clicked : Bool
  connected : Bool

/-- Embedding of the legacy `DragLine.__init__(orientation, ax, position)`.
For the two supported orientations it assigns `self.myobj` and
`self.orientation`; the final `else` branch holds only a `# throw an error`
comment and `pass`, so neither attribute is assigned.  The subsequent
`DragObj.__init__(self, ax)` call then evaluates `self.myobj.set_url`, which
raises `AttributeError` because `myobj` was never assigned. -/
def DragLine.init (orientation : String) (ax : Axes) (position : Int) :
    Except PyError Legacy.DragLineState :=
  let assigned : Option (String × List Int × List Int) :=
    if pyLower orientation = "horizontal" then
      some (pyLower orientation, [ax.xlim.1, ax.xlim.2], listmult [1, 1] position)
    else if pyLower orientation = "vertical" then
      some (pyLower orientation, listmult [1, 1] position, [ax.ylim.1, ax.ylim.2])
    else none
  match assigned with
  | some fields =>
      .ok { orientation := fields.1
            xdata := fields.2.1
            ydata := fields.2.2
            clicked := false
            connected := false }
  | none => .error .attributeError

end Legacy

namespace Dragpy

/-- A pointer-gesture event as dispatched by the hosting canvas. -/
inductive PointerEvent where
  | press (e : Event)
  | motion (e : Event)
  | release (e : Event)

/-- Canvas dispatch to a draggable line: the press callback is connected
from construction on, while the motion/release callbacks reach the object
only while connected — `on_click` is the sole place they are connected and
`on_release` (via `disconnect`) the sole place they are disconnected. -/
def DragLineState.handle (s : DragLineState) (ev : PointerEvent) :
    Except PyError DragLineState :=
  match ev with
  | .press e =>
      match s.base.on_click e with
      | .ok b => .ok { s with base := b }
      | .error err => .error err
  | .motion e => if s.base.connected then s.on_motion e else .ok s
  | .release e =>
      if s.base.connected then .ok { s with base := s.base.on_release e }
      else .ok s

/-- Canvas dispatch to a draggable patch, analogous to line dispatch but
with the patch's own release override. -/
def DragPatchState.handle (s : DragPatchState) (ev : PointerEvent) :
    Except PyError DragPatchState :=
  match ev with
  | .press e =>
      match s.base.on_click e with
      | .ok b => .ok { s with base := b }
      | .error err => .error err
  | .motion e => if s.base.connected then .ok (s.on_motion e) else .ok s
  | .release e => if s.base.connected then .ok (s.on_release e) else .ok s

/-! ### Concrete fixtures used by the witness theorems -/

/-- Containment oracle covering the whole plane. -/
def wholePlane : Event → Bool := fun _ => true

/-- First draggable-tagged artist of the fixture axes. -/
def wArt0 : Artist := { id := 0, url := "dragobj", contains := wholePlane }

/-- Second draggable-tagged artist of the fixture axes. -/
def wArt1 : Artist := { id := 1, url := "dragobj", contains := wholePlane }

/-- Fixture axes holding the two artists in rendering order. -/
def wAx : Axes := { id := 5, xlim := (0, 10), ylim := (0, 10), children := [wArt0, wArt1] }

/-- Fixture draggable wrapping `wArt0`. -/
def wObj0 : DragObjBase :=
  { parentax := wAx, myobj := wArt0, clicked := false, connected := false,
    clickx := 0, clicky := 0 }

/-- Fixture draggable wrapping `wArt1`. -/
def wObj1 : DragObjBase :=
  { parentax := wAx, myobj := wArt1, clicked := false, connected := false,
    clickx := 0, clicky := 0 }

/-- Fixture press/motion event over the fixture axes. -/
def wEvent : Event := { inaxes := some 5, xdata := 3, ydata := 4 }

/-- Fixture event over a different axes object. -/
def wEventOut : Event := { inaxes := some 6, xdata := 3, ydata := 4 }

/-- Fixture vertical draggable line, mid-drag. -/
def wLine : DragLineState :=
  { base := { wObj0 with clicked := true }, orientation := "vertical",
    snapto := none, xdata := [2, 2], ydata := [0, 10] }

/-- Fixture draggable patch, mid-drag with press pointer (1, 1). -/
def wPatch : DragPatchState :=
  { base := { wObj0 with clicked := true, connected := true, clickx := 1, clicky := 1 },
    shape := .rectangle 2 2 0, pos := (0, 0), oldxy := (0, 0) }

/-- Fixture draggable patch with no gesture in progress. -/
def wPatchIdle : DragPatchState :=
  { base := wObj0, shape := .rectangle 2 2 0, pos := (0, 0), oldxy := (0, 0) }

/-- Fixture vertical fixed-size window, mid-drag with press pointer (1, 1). -/
def wFixed : FixedWindowState :=
  { base := { wObj0 with clicked := true, connected := true, clickx := 1, clicky := 1 },
    orientation := "vertical", snapto := none, xy := (0, 0), width := 3,
    height := 10, oldxy := (0, 0) }

/-- Fixture window edge at x = 5. -/
def wEdge1 : DragLineState :=
  { base := wObj0, orientation := "vertical", snapto := none,
    xdata := [5, 5], ydata := [0, 10] }

/-- Fixture window edge at x = 1, positioned below the first edge. -/
def wEdge2 : DragLineState :=
  { base := wObj1, orientation := "vertical", snapto := none,
    xdata := [1, 1], ydata := [0, 10] }

/-- Fixture composite window whose first edge lies to the right of its
second edge; the stored span dimensions are stale. -/
def wWindow : WindowState :=
  { edge1 := wEdge1, edge2 := wEdge2, orientation := "vertical",
    spanxy := (9, 9), spanwidth := 0, spanheight := 0 }

/-! ### Claim C1: the `draglimiter` clamping law -/

theorem foldl_min_le_foldl_max (t : List Int) :
    ∀ a b : Int, a ≤ b → t.foldl min a ≤ t.foldl max b := by
  induction t with
  | nil => intro a b h; simpa using h
  | cons c t ih =>
      intro a b h
      simp only [List.foldl_cons]
      exact ih _ _ (le_trans (min_le_left a c) (le_trans h (le_max_left b c)))

theorem min?_le_max?_int (s : List Int) (m M : Int)
    (hm : s.min? = some m) (hM : s.max? = some M) : m ≤ M := by
  cases s with
  | nil => simp [List.min?] at hm
  | cons a t =>
      simp only [List.min?, List.max?, Option.some.injEq] at hm hM
      rw [← hm, ← hM]
      exact foldl_min_le_foldl_max t a a le_rfl

/-- Claim C1: for a data series with minimum `m` and maximum `M`,
`draglimiter` returns the query point when it lies in `[m, M]`, returns `M`
above the maximum, returns `m` below the minimum, and its result always lies
in the closed interval `[m, M]`. -/
theorem C1_draglimiter_clamps (s : List Int) (q m M : Int)
    (hm : s.min? = some m) (hM : s.max? = some M) :
    (m ≤ q → q ≤ M → draglimiter s q = some q) ∧
    (M < q → draglimiter s q = some M) ∧
    (q < m → draglimiter s q = some m) ∧
    (∀ r, draglimiter s q = some r → m ≤ r ∧ r ≤ M) := by
  have hmM : m ≤ M := min?_le_max?_int s m M hm hM
  have hd : draglimiter s q =
      if q > M then some M else if q < m then some m else some q := by
    unfold draglimiter
    rw [hm, hM]
  rw [hd]
  refine ⟨?_, ?_, ?_, ?_⟩
  · intro h1 h2
    rw [if_neg (by omega), if_neg (by omega)]
  · intro h
    rw [if_pos (by omega)]
  · intro h
    rw [if_neg (by omega), if_pos (by omega)]
  · intro r hr
    by_cases h1 : q > M
    · rw [if_pos h1] at hr
      cases hr; omega
    · rw [if_neg h1] at hr
      by_cases h2 : q < m
      · rw [if_pos h2] at hr
        cases hr; omega
      · rw [if_neg h2] at hr
        cases hr; omega

/-- Witness for C1 at the concrete series `[1, 7, 3]` (minimum 1, maximum 7)
and query point 5. -/
theorem C1_draglimiter_clamps_witness :
    (1 ≤ (5 : Int) → (5 : Int) ≤ 7 → draglimiter [1, 7, 3] 5 = some 5) ∧
    ((7 : Int) < 5 → draglimiter [1, 7, 3] 5 = some 7) ∧
    ((5 : Int) < 1 → draglimiter [1, 7, 3] 5 = some 1) ∧
    (∀ r, draglimiter [1, 7, 3] 5 = some r → 1 ≤ r ∧ r ≤ 7) :=
  C1_draglimiter_clamps [1, 7, 3] 5 1 7 (by decide) (by decide)

/-! ### Claims C2, C3, C10: the press lifecycle and hit-test tie-break -/

theorem shouldthismove_eq (s : DragObjBase) (e : Event)
    (hc : s.myobj.contains e = true) :
    s.shouldthismove e =
      (match (s.parentax.children.filter
          (fun child => child.url == "dragobj" && child.contains e)).getLast? with
       | some lastobj => .ok (lastobj.id == s.myobj.id)
       | none => .error .indexError) := by
  unfold DragObjBase.shouldthismove
  rw [hc]
  rfl

/-- Claim C3: a pointer event over a different axes object leaves every
draggable completely unchanged, whether delivered to the base press handler,
the line motion handler, the patch motion handler, or the fixed-window
motion handler. -/
theorem C3_out_of_frame_noop (b : DragObjBase) (l : DragLineState)
    (p : DragPatchState) (f : FixedWindowState) (e : Event)
    (hb : e.inaxes ≠ some b.parentax.id)
    (hl : e.inaxes ≠ some l.base.parentax.id)
    (hp : e.inaxes ≠ some p.base.parentax.id)
    (hf : e.inaxes ≠ some f.base.parentax.id) :
    b.on_click e = .ok b ∧ l.on_motion e = .ok l ∧
    p.on_motion e = p ∧ f.on_motion e = .ok f := by
  refine ⟨?_, ?_, ?_, ?_⟩
  · unfold DragObjBase.on_click
    rw [if_pos hb]
  · cases hcl : l.base.clicked
    · simp [DragLineState.on_motion, hcl]
    · simp [DragLineState.on_motion, hcl, hl]
  · cases hcl : p.base.clicked
    · simp [DragPatchState.on_motion, hcl]
    · simp [DragPatchState.on_motion, hcl, hp]
  · cases hcl : f.base.clicked
    · simp [FixedWindowState.on_motion, hcl]
    · simp [FixedWindowState.on_motion, hcl, hf]

/-- Witness for C3 at the fixture states and the out-of-axes event. -/
theorem C3_out_of_frame_noop_witness :
    wObj0.on_click wEventOut = .ok wObj0 ∧
    wLine.on_motion wEventOut = .ok wLine ∧
    wPatch.on_motion wEventOut = wPatch ∧
    wFixed.on_motion wEventOut = .ok wFixed :=
  C3_out_of_frame_noop wObj0 wLine wPatch wFixed wEventOut
    (by decide) (by decide) (by decide) (by decide)

/-- Claim C10: when the pressed object's own artist contains the event and
is a dragobj-tagged child of its parent axes, the candidate list built by
`shouldthismove` is non-empty, so indexing its last element cannot raise:
the tie-break is total. -/
theorem C10_tiebreak_total (s : DragObjBase) (e : Event)
    (hc : s.myobj.contains e = true)
    (hmem : s.myobj ∈ s.parentax.children)
    (hurl : s.myobj.url = "dragobj") :
    ∃ b, s.shouldthismove e = .ok b := by
  have hfmem : s.myobj ∈ s.parentax.children.filter
      (fun child => child.url == "dragobj" && child.contains e) :=
    List.mem_filter.mpr ⟨hmem, by simp [hurl, hc]⟩
  have hne : s.parentax.children.filter
      (fun child => child.url == "dragobj" && child.contains e) ≠ [] :=
    List.ne_nil_of_mem hfmem
  rw [shouldthismove_eq s e hc]
  cases hlast : (s.parentax.children.filter
      (fun child => child.url == "dragobj" && child.contains e)).getLast? with
  | none =>
      exfalso
      have hsome := List.getLast?_isSome.mpr hne
      rw [hlast] at hsome
      simp at hsome
  | some lastobj =>
      exact ⟨lastobj.id == s.myobj.id, rfl⟩

/-- Witness for C10 at the first fixture draggable and the in-axes event. -/
theorem C10_tiebreak_total_witness :
    ∃ b, wObj0.shouldthismove wEvent = .ok b :=
  C10_tiebreak_total wObj0 wEvent rfl (List.mem_cons_self wArt0 [wArt1]) rfl

/-- Claim C2: when the dragobj-tagged children of the axes containing the
press event are exactly the artists of the draggables `objs` (in rendering
order, at least two of them, with distinct identities), the press handler
transitions only the object owning the last containing artist to
`clicked = true` with its motion/release callbacks connected, and leaves
every other object completely unchanged. -/
theorem C2_tiebreak_topmost (ax : Axes) (event : Event)
    (objs : List DragObjBase)
    (hN : 2 ≤ objs.length)
    (hax : ∀ o ∈ objs, o.parentax = ax)
    (hin : event.inaxes = some ax.id)
    (hfilter : ax.children.filter
        (fun child => child.url == "dragobj" && child.contains event) =
      objs.map (fun o => o.myobj))
    (hnodup : (objs.map (fun o => o.myobj.id)).Nodup) :
    ∀ i (hi : i < objs.length),
      (i = objs.length - 1 →
        (objs.get ⟨i, hi⟩).on_click event =
          .ok { objs.get ⟨i, hi⟩ with
                  connected := true
                  clickx := event.xdata
                  clicky := event.ydata
                  clicked := true }) ∧
      (i ≠ objs.length - 1 →
        (objs.get ⟨i, hi⟩).on_click event = .ok (objs.get ⟨i, hi⟩)) := by
  intro i hi
  have hne : objs ≠ [] := by
    intro h
    rw [h] at hN
    simp at hN
  set o := objs.get ⟨i, hi⟩ with ho
  have hmem : o ∈ objs := List.get_mem objs i hi
  have hpax : o.parentax = ax := hax o hmem
  have hmyobjmem : o.myobj ∈ objs.map (fun o => o.myobj) :=
    List.mem_map_of_mem _ hmem
  have hcontains : o.myobj.contains event = true := by
    have h1 : o.myobj ∈ ax.children.filter
        (fun child => child.url == "dragobj" && child.contains event) := by
      rw [hfilter]
      exact hmyobjmem
    have h2 := List.of_mem_filter h1
    simp only [Bool.and_eq_true] at h2
    exact h2.2
  have hlast : (objs.map (fun o => o.myobj)).getLast? =
      some ((objs.getLast hne).myobj) := by
    rw [List.getLast?_map, List.getLast?_eq_getLast objs hne]
    rfl
  have hstm : o.shouldthismove event =
      .ok ((objs.getLast hne).myobj.id == o.myobj.id) := by
    rw [shouldthismove_eq o event hcontains, hpax, hfilter, hlast]
  have hclick : o.on_click event =
      match o.shouldthismove event with
      | .error err => .error err
      | .ok false => .ok o
      | .ok true =>
          .ok { o with
                  connected := true
                  clickx := event.xdata
                  clicky := event.ydata
                  clicked := true } := by
    unfold DragObjBase.on_click
    rw [if_neg (by simp [hin, hpax])]
  constructor
  · intro hieq
    have hoeq : objs.getLast hne = o := by
      rw [List.getLast_eq_getElem objs hne, ho, List.get_eq_getElem]
      subst hieq
      rfl
    rw [hclick, hstm, hoeq]
    simp
  · intro hne2
    have hiL : i < (objs.map (fun o => o.myobj.id)).length := by
      simpa using hi
    have hNL : objs.length - 1 < (objs.map (fun o => o.myobj.id)).length := by
      simp
      omega
    have hgi : (objs.map (fun o => o.myobj.id)).get ⟨i, hiL⟩ = o.myobj.id := by
      rw [ho]
      simp [List.get_eq_getElem, List.getElem_map]
    have hgN : (objs.map (fun o => o.myobj.id)).get ⟨objs.length - 1, hNL⟩ =
        (objs.getLast hne).myobj.id := by
      rw [List.getLast_eq_getElem objs hne]
      simp [List.get_eq_getElem, List.getElem_map]
    have hneid : (objs.getLast hne).myobj.id ≠ o.myobj.id := by
      rw [← hgi, ← hgN]
      intro hcontra
      have h3 := hnodup.get_inj_iff.mp hcontra
      have h4 : objs.length - 1 = i := congrArg Fin.val h3
      exact hne2 h4.symm
    rw [hclick, hstm, beq_eq_false_iff_ne.mpr hneid]

/-- Witness for C2 with the two stacked fixture draggables: the press marks
the later-rendered object clicked and leaves the earlier one unchanged. -/
theorem C2_tiebreak_topmost_witness :
    wObj1.on_click wEvent =
      .ok { wObj1 with
              connected := true
              clickx := 3
              clicky := 4
              clicked := true } ∧
    wObj0.on_click wEvent = .ok wObj0 := by
  have h := C2_tiebreak_topmost wAx wEvent [wObj0, wObj1] (by decide)
    (fun o ho => by
      rcases List.mem_cons.mp ho with h0 | ho2
      · rw [h0]
        rfl
      · rcases List.mem_cons.mp ho2 with h1 | h2
        · rw [h1]
          rfl
        · cases h2)
    rfl rfl (by decide)
  exact ⟨(h 1 (by decide)).1 rfl, (h 0 (by decide)).2 (by decide)⟩

/-! ### Claims C4, C5: construction-time validation -/

/-- Claim C4 (code defect, evaluated at the failing input): the package
constructors `DragLine2D`, `FixedWindow` and `Window` reject the unsupported
orientation string `"diagonal"` with `ValueError`, but the legacy root
module's `DragLine` runs through its empty invalid-orientation branch
(despite the `# throw an error` comment there) and construction instead dies
with `AttributeError` on the unassigned `myobj` inside `DragObj.__init__`,
not with an invalid-argument condition. -/
theorem C4_invalid_orientation_eval :
    Legacy.DragLine.init "diagonal" wAx 2 = .error .attributeError ∧
    DragLine2D.init wAx 7 wholePlane 2 "diagonal" none = .error .valueError ∧
    FixedWindow.init wAx 8 wholePlane 2 3 "diagonal" none =
      .error .valueError ∧
    Window.init wAx 9 10 wholePlane wholePlane 2 3 "diagonal" none =
      .error .valueError :=
  ⟨rfl, rfl, rfl, rfl⟩

/-- Claim C5 (code defect, evaluated at documented parameters): the ellipse,
rectangle, arc, wedge and regular-polygon kinds construct successfully as
plain `_DragPatch` states differing only in their recorded shape parameters
(drag behavior is the shared `DragPatchState.on_motion`/`on_release`), but
`DragCircle` construction always raises `TypeError`: its
`super().__init__(ax, xy)` resolves to `DragEllipse.__init__`, which
requires the `width` and `height` arguments that are not supplied. -/
theorem C5_patch_kinds_eval :
    DragCircle.init wAx 1 wholePlane (0, 0) 5 = .error .typeError ∧
    DragEllipse.init wAx 1 wholePlane (0, 0) 4 2 0 =
      DragPatch.init wAx 1 wholePlane (.ellipse 4 2 0) (0, 0) ∧
    DragRectangle.init wAx 1 wholePlane (0, 0) 4 2 0 =
      DragPatch.init wAx 1 wholePlane (.rectangle 4 2 0) (0, 0) ∧
    DragArc.init wAx 1 wholePlane (0, 0) 4 2 0 0 360 =
      DragPatch.init wAx 1 wholePlane (.arc 4 2 0 0 360) (0, 0) ∧
    DragWedge.init wAx 1 wholePlane (0, 0) 5 0 90 none =
      DragPatch.init wAx 1 wholePlane (.wedge 5 0 90 none) (0, 0) ∧
    DragRegularPolygon.init wAx 1 wholePlane (0, 0) 6 5 0 =
      DragPatch.init wAx 1 wholePlane (.regularPolygon 6 5 0) (0, 0) :=
  ⟨rfl, rfl, rfl, rfl, rfl, rfl⟩

/-! ### Claim C6: delta-based patch motion -/

/-- Claim C6: while clicked and in-frame, a motion event moves the patch to
`P0 + (Q1 − Q0)`, where `P0` is the stored anchor and `Q0` the press-time
pointer; the second conjunct makes the additive dependence on `P0`
(translation invariance) explicit. -/
theorem C6_patch_delta (s : DragPatchState) (e : Event)
    (hc : s.base.clicked = true)
    (hin : e.inaxes = some s.base.parentax.id) :
    s.on_motion e =
      { s with pos := (s.oldxy.1 + (e.xdata - s.base.clickx),
                       s.oldxy.2 + (e.ydata - s.base.clicky)) } ∧
    ∀ t : Int × Int,
      (({ s with oldxy := (s.oldxy.1 + t.1, s.oldxy.2 + t.2) } :
          DragPatchState).on_motion e).pos =
        ((s.on_motion e).pos.1 + t.1, (s.on_motion e).pos.2 + t.2) := by
  constructor
  · simp [DragPatchState.on_motion, hc, hin]
  · intro t
    simp [DragPatchState.on_motion, hc, hin]
    constructor <;> ring

/-- Witness for C6 at the fixture patch (anchor (0, 0), press pointer
(1, 1)) and the fixture motion event at (3, 4), including the translation
of the anchor by (10, 20). -/
theorem C6_patch_delta_witness :
    wPatch.on_motion wEvent =
      { wPatch with
          pos := (wPatch.oldxy.1 + (wEvent.xdata - wPatch.base.clickx),
                  wPatch.oldxy.2 + (wEvent.ydata - wPatch.base.clicky)) } ∧
    (({ wPatch with
          oldxy := (wPatch.oldxy.1 + 10, wPatch.oldxy.2 + 20) } :
        DragPatchState).on_motion wEvent).pos =
      ((wPatch.on_motion wEvent).pos.1 + 10,
       (wPatch.on_motion wEvent).pos.2 + 20) := by
  have h := C6_patch_delta wPatch wEvent rfl rfl
  exact ⟨h.1, h.2 (10, 20)⟩

/-! ### Claim C7: the window span invariant -/

/-- Claim C7: after any redraw notification, the recomputed span rectangle
spans exactly from the minimum to the maximum of the union of the two
edges' positional data on each axis — independent of the relative order of
the edges — and the `bounds` property reports that interval on the
orientation axis. -/
theorem C7_window_span (w : WindowState) (mx Mx my My : Int)
    (hmx : (w.edge1.xdata ++ w.edge2.xdata).min? = some mx)
    (hMx : (w.edge1.xdata ++ w.edge2.xdata).max? = some Mx)
    (hmy : (w.edge1.ydata ++ w.edge2.ydata).min? = some my)
    (hMy : (w.edge1.ydata ++ w.edge2.ydata).max? = some My) :
    ∃ w2, w.resizespanpatch = .ok w2 ∧
      w2.spanxy = (mx, my) ∧
      w2.spanxy.1 + w2.spanwidth = Mx ∧
      w2.spanxy.2 + w2.spanheight = My ∧
      (w.orientation = "vertical" → w2.bounds = some (mx, Mx)) ∧
      (w.orientation = "horizontal" → w2.bounds = some (my, My)) := by
  have hx : mx ≤ Mx := min?_le_max?_int _ mx Mx hmx hMx
  have hy : my ≤ My := min?_le_max?_int _ my My hmy hMy
  have habsx : |Mx - mx| = Mx - mx := abs_of_nonneg (by omega)
  have habsy : |My - my| = My - my := abs_of_nonneg (by omega)
  have hdims : Window.spanpatchdims w.edge1 w.edge2 =
      .ok ((mx, my), |Mx - mx|, |My - my|) := by
    unfold Window.spanpatchdims
    rw [hmx, hMx, hmy, hMy]
  refine ⟨{ w with
              spanxy := (mx, my)
              spanwidth := |Mx - mx|
              spanheight := |My - my| }, ?_, rfl, ?_, ?_, ?_, ?_⟩
  · unfold WindowState.resizespanpatch
    rw [hdims]
  · show mx + |Mx - mx| = Mx
    rw [habsx]
    ring
  · show my + |My - my| = My
    rw [habsy]
    ring
  · intro hor
    show (if w.orientation = "vertical" then some (mx, mx + |Mx - mx|)
          else if w.orientation = "horizontal" then some (my, my + |My - my|)
          else none) = some (mx, Mx)
    rw [if_pos hor, habsx, show mx + (Mx - mx) = Mx from by ring]
  · intro hor
    show (if w.orientation = "vertical" then some (mx, mx + |Mx - mx|)
          else if w.orientation = "horizontal" then some (my, my + |My - my|)
          else none) = some (my, My)
    rw [hor, if_neg (by decide), if_pos rfl, habsy,
        show my + (My - my) = My from by ring]

/-- Witness for C7 at the fixture window whose first edge (x = 5) lies past
its second edge (x = 1): the recomputed span runs from 1 to 5. -/
theorem C7_window_span_witness :
    ∃ w2, wWindow.resizespanpatch = .ok w2 ∧
      w2.spanxy = (1, 0) ∧
      w2.spanxy.1 + w2.spanwidth = 5 ∧
      w2.spanxy.2 + w2.spanheight = 10 ∧
      (wWindow.orientation = "vertical" → w2.bounds = some (1, 5)) ∧
      (wWindow.orientation = "horizontal" → w2.bounds = some (0, 10)) :=
  C7_window_span wWindow 1 5 0 10 (by decide) (by decide) (by decide)
    (by decide)

/-! ### Claim C8: FixedWindow axis-locked motion, inert snapto -/

/-- Claim C8: while clicked and in-frame, a FixedWindow applies the pointer
delta only along its constrained axis, taking the other coordinate from the
anchor unchanged; the motion result is entirely independent of the stored
`snapto` reference, which construction stores verbatim without it ever
constraining motion. -/
theorem C8_fixedwindow_axis_lock (s : FixedWindowState) (e : Event)
    (hc : s.base.clicked = true)
    (hin : e.inaxes = some s.base.parentax.id) :
    (s.orientation = "vertical" →
      s.on_motion e =
        .ok { s with xy := (s.oldxy.1 + (e.xdata - s.base.clickx),
                            s.oldxy.2) }) ∧
    (s.orientation = "horizontal" →
      s.on_motion e =
        .ok { s with xy := (s.oldxy.1,
                            s.oldxy.2 + (e.ydata - s.base.clicky)) }) ∧
    (∀ snap : Option Lineseries,
      ({ s with snapto := snap } : FixedWindowState).on_motion e =
        (s.on_motion e).map (fun s2 => { s2 with snapto := snap })) ∧
    (∀ ax objid oc pe ws orient snap s2,
      FixedWindow.init ax objid oc pe ws orient snap = .ok s2 →
      s2.snapto = snap) := by
  refine ⟨?_, ?_, ?_, ?_⟩
  · intro hor
    simp [FixedWindowState.on_motion, hc, hin, hor]
  · intro hor
    simp [FixedWindowState.on_motion, hc, hin, hor]
  · intro snap
    cases hcl : s.base.clicked with
    | false => simp [FixedWindowState.on_motion, hcl, Except.map]
    | true =>
        by_cases hax : e.inaxes ≠ some s.base.parentax.id
        · simp [FixedWindowState.on_motion, hcl, hax, Except.map]
        · by_cases hh : s.orientation = "horizontal"
          · simp [FixedWindowState.on_motion, hcl, hax, hh, Except.map]
          · by_cases hv : s.orientation = "vertical"
            · simp [FixedWindowState.on_motion, hcl, hax, hh, hv, Except.map]
            · simp [FixedWindowState.on_motion, hcl, hax, hh, hv, Except.map]
  · intro ax objid oc pe ws orient snap s2 hinit
    unfold FixedWindow.init at hinit
    by_cases h1 : pyLower orient = "vertical"
    · rw [if_pos h1] at hinit
      injection hinit with h3
      rw [← h3]
    · rw [if_neg h1] at hinit
      by_cases h2 : pyLower orient = "horizontal"
      · rw [if_pos h2] at hinit
        injection hinit with h3
        rw [← h3]
      · rw [if_neg h2] at hinit
        exact Except.noConfusion hinit

/-- Witness for C8 at the fixture vertical FixedWindow, the fixture motion
event, the snap series with x data `[0, 1]`, and a fresh horizontal
construction. -/
theorem C8_fixedwindow_axis_lock_witness :
    (wFixed.orientation = "vertical" →
      wFixed.on_motion wEvent =
        .ok { wFixed with
                xy := (wFixed.oldxy.1 + (wEvent.xdata - wFixed.base.clickx),
                       wFixed.oldxy.2) }) ∧
    (({ wFixed with snapto := some { xdata := [0, 1], ydata := [0, 1] } } :
        FixedWindowState).on_motion wEvent =
      (wFixed.on_motion wEvent).map
        (fun s2 => { s2 with
                       snapto := some { xdata := [0, 1], ydata := [0, 1] } })) ∧
    (∀ s2, FixedWindow.init wAx 8 wholePlane 2 3 "horizontal"
        (some { xdata := [0, 1], ydata := [0, 1] }) = .ok s2 →
      s2.snapto = some { xdata := [0, 1], ydata := [0, 1] }) := by
  have h := C8_fixedwindow_axis_lock wFixed wEvent rfl rfl
  exact ⟨h.1, h.2.2.1 (some { xdata := [0, 1], ydata := [0, 1] }),
         fun s2 => h.2.2.2 wAx 8 wholePlane 2 3 "horizontal"
           (some { xdata := [0, 1], ydata := [0, 1] }) s2⟩

/-! ### Claim C9: gesture ordering through callback (dis)connection -/

/-- Claim C9: motion and release callbacks are connected only inside the
press handler and disconnected inside the release handler, so a motion or
release event dispatched while they are not connected leaves the object
unchanged, a connection can only be established by a press event, and after
handling a release the callbacks are always disconnected — stated for both
the line and the patch lifecycle. -/
theorem C9_gesture_ordering (l : DragLineState) (p : DragPatchState)
    (e : Event) :
    (l.base.connected = false →
      l.handle (.motion e) = .ok l ∧ l.handle (.release e) = .ok l) ∧
    (∀ ev l2, l.handle ev = .ok l2 → l.base.connected = false →
      l2.base.connected = true → ∃ e0, ev = .press e0) ∧
    (∀ l2, l.handle (.release e) = .ok l2 → l2.base.connected = false) ∧
    (p.base.connected = false →
      p.handle (.motion e) = .ok p ∧ p.handle (.release e) = .ok p) ∧
    (∀ ev p2, p.handle ev = .ok p2 → p.base.connected = false →
      p2.base.connected = true → ∃ e0, ev = .press e0) ∧
    (∀ p2, p.handle (.release e) = .ok p2 → p2.base.connected = false) := by
  refine ⟨?_, ?_, ?_, ?_, ?_, ?_⟩
  · intro h
    constructor <;> simp [DragLineState.handle, h]
  · intro ev l2 hh hcon htrue
    cases ev with
    | press e0 => exact ⟨e0, rfl⟩
    | motion e0 =>
        simp [DragLineState.handle, hcon] at hh
        rw [← hh, hcon] at htrue
        exact absurd htrue (by simp)
    | release e0 =>
        simp [DragLineState.handle, hcon] at hh
        rw [← hh, hcon] at htrue
        exact absurd htrue (by simp)
  · intro l2 hh
    cases hcon : l.base.connected with
    | false =>
        simp [DragLineState.handle, hcon] at hh
        rw [← hh]
        exact hcon
    | true =>
        simp [DragLineState.handle, hcon] at hh
        rw [← hh]
        rfl
  · intro h
    constructor <;> simp [DragPatchState.handle, h]
  · intro ev p2 hh hcon htrue
    cases ev with
    | press e0 => exact ⟨e0, rfl⟩
    | motion e0 =>
        simp [DragPatchState.handle, hcon] at hh
        rw [← hh, hcon] at htrue
        exact absurd htrue (by simp)
    | release e0 =>
        simp [DragPatchState.handle, hcon] at hh
        rw [← hh, hcon] at htrue
        exact absurd htrue (by simp)
  · intro p2 hh
    cases hcon : p.base.connected with
    | false =>
        simp [DragPatchState.handle, hcon] at hh
        rw [← hh]
        exact hcon
    | true =>
        simp [DragPatchState.handle, hcon] at hh
        rw [← hh]
        rfl

/-- Witness for C9 at the fixture line and idle patch (callbacks not
connected): stray motion and release dispatches change nothing. -/
theorem C9_gesture_ordering_witness :
    (wLine.handle (.motion wEvent) = .ok wLine ∧
     wLine.handle (.release wEvent) = .ok wLine) ∧
    (wPatchIdle.handle (.motion wEvent) = .ok wPatchIdle ∧
     wPatchIdle.handle (.release wEvent) = .ok wPatchIdle) := by
  have h := C9_gesture_ordering wLine wPatchIdle wEvent
  exact ⟨h.1 rfl, h.2.2.2.1 rfl⟩

end Dragpy
